import Mathlib

/-!
Shallow embedding of the expression pipeline engine of the
`poc_payload_processor` Go repository (file `parser/engine.go`).

Go strings are modelled as Lean `String`; `[]byte` round-trips through
`string(...)` in the engine, so raw byte payloads are modelled as `String`
as well.  `interface{}` dynamic values are modelled by the closed inductive
`GoValue`; the Go type assertion `v.(string)` succeeds exactly on the
`GoValue.str` constructor, and `%T` formatting is modelled by `goTypeName`.
The external query backends and the payload factory (files of the
repository not under `parser/engine.go`) are opaque to the engine: a
`PayloadObject` is anything providing `GetContentType` and `Query`, and the
factory is a function the engine calls; theorems quantify over them.
-/

/-- The `ResultType` enumeration (class diagram / types file of the repo). -/
inductive ResultType where
  | ScalarResult
  | NodeSetResult
  | ObjectResult
  | ArrayResult
  | StringResult
  | BooleanResult
  | NumberResult
  | UnknownResult
deriving DecidableEq, Repr

/-- A Go `interface{}` value as the engine can observe it: the engine only
ever distinguishes `string` from everything else (via a type assertion) and
formats non-strings with `%T`.  `other tyName` stands for any other dynamic
value (e.g. a node set `[]*xmlquery.Node`) whose Go type name is `tyName`. -/
inductive GoValue where
  | str (s : String)
  | boolean (b : Bool)
  | num (n : Int)
  | other (tyName : String)
  | nil
deriving DecidableEq, Repr

/-- Go `%T` formatting of a dynamic value, as used in the engine's
"requires string input" error message. -/
def goTypeName : GoValue → String
  | .str _ => "string"
  | .boolean _ => "bool"
  | .num _ => "float64"
  | .other tyName => tyName
  | .nil => "<nil>"

/-- `QueryResult` from the repo: a dynamic `Value` and an advisory type tag
(the Go field is named `Type`; renamed `Ty` here because `Type` is a Lean
keyword). -/
structure QueryResult where
  Value : GoValue
  Ty : ResultType
deriving DecidableEq, Repr

/-- The engine's error values.  `errInvalidPayloadForOperation`,
`errUnsupportedExpression` and `errEvaluationFailed` mirror the repo's
`ErrInvalidPayloadForOperation{Operation, PayloadType, Reason}`,
`ErrUnsupportedExpression{Expression}` and
`ErrEvaluationFailed{Expression, Reason, InnerError}`.  `errorInPart`
models the `fmt.Errorf("error in expression part '%s': %w", part, err)`
wrapping, and `backend` stands for any opaque error coming out of a
payload's query backend or the payload factory. -/
inductive GoError where
  | errInvalidPayloadForOperation (operation payloadType reason : String)
  | errUnsupportedExpression (expression : String)
  | errEvaluationFailed (expression reason : String) (innerError : Option GoError)
  | errorInPart (part : String) (inner : GoError)
  | backend (msg : String)

/-- The `PayloadObject` interface as the engine uses it: the engine only
calls `GetContentType()` and `Query(expression)`.  The concrete XML/JSON
implementations wrap external parsers and are opaque here. -/
structure PayloadObject where
  GetContentType : String
  Query : String → Except GoError QueryResult

/-- The `PayloadFactory`: `CreatePayload(raw []byte, contentType string)`.
The concrete dispatch lives in a repo file outside `engine.go`; the engine
treats it as a black box, so it is a function parameter here. -/
structure PayloadFactory where
  CreatePayload : String → String → Except GoError PayloadObject

/-- `ExpressionEngine` holds its payload factory. -/
structure ExpressionEngine where
  payloadFactory : PayloadFactory

/-- Go constant `xpathPrefix = "xpath:"`. -/
def xpathPfx : String := "xpath:"

/-- Go constant `jsonpathPrefix = "jsonpath:"`. -/
def jsonpathPfx : String := "jsonpath:"

/-- Go constant `extractAsJSONPipe = "extractAsJSON"`. -/
def extractAsJSONPipe : String := "extractAsJSON"

/-- Go constant `extractAsXMLPipe = "extractAsXML"`. -/
def extractAsXMLPipe : String := "extractAsXML"

/-- Whether the character list `p` heads the character list `s`
(Go `strings.HasPrefix` on the underlying runes). -/
def listHeads : List Char → List Char → Bool
  | [], _ => true
  | _ :: _, [] => false
  | p :: ps, c :: cs => p == c && listHeads ps cs

/-- Go `strings.HasPrefix s pat`. -/
def startsWithStr (s pat : String) : Bool :=
  listHeads pat.data s.data

/-- Go `strings.TrimPrefix s pat`: drops `pat` from the front when present,
otherwise returns `s` unchanged. -/
def trimPfxStr (s pat : String) : String :=
  if startsWithStr s pat then ⟨s.data.drop pat.data.length⟩ else s

/-- Drop leading whitespace characters from a character list. -/
def dropLeadingWs : List Char → List Char
  | [] => []
  | c :: cs => if c.isWhitespace then dropLeadingWs cs else c :: cs

/-- Go `strings.TrimSpace` (restricted to the ASCII whitespace the claims
use: space, tab, carriage return, newline). -/
def trimSpace (s : String) : String :=
  ⟨(dropLeadingWs (dropLeadingWs s.data.reverse).reverse)⟩

/-- Splitting a character list at every `'|'` (empty pieces kept),
accumulating the current piece in reverse. -/
def splitPipeAux : List Char → List Char → List (List Char)
  | [], acc => [acc.reverse]
  | c :: cs, acc =>
    if c == '|' then acc.reverse :: splitPipeAux cs []
    else splitPipeAux cs (c :: acc)

/-- Go `strings.Split fullExpression "|"`: split at every occurrence of the
pipe character, with no escaping or quoting; the empty string yields one
empty piece. -/
def splitOnPipe (s : String) : List String :=
  (splitPipeAux s.data []).map (fun l => ⟨l⟩)

/-- `evaluateSingleExpression` from `parser/engine.go`: dispatch on the
`xpath:` / `jsonpath:` prefix, gate on the payload's declared content type,
strip the prefix and delegate to `PayloadObject.Query`. -/
def evaluateSingleExpression (pld : PayloadObject) (expressionPart : String) :
    Except GoError QueryResult :=
  if startsWithStr expressionPart xpathPfx then
    if pld.GetContentType ≠ "application/xml" ∧ pld.GetContentType ≠ "text/xml" then
      .error (.errInvalidPayloadForOperation "XPath" pld.GetContentType
        "XPath requires XML payload")
    else
      pld.Query (trimPfxStr expressionPart xpathPfx)
  else if startsWithStr expressionPart jsonpathPfx then
    if pld.GetContentType ≠ "application/json" then
      .error (.errInvalidPayloadForOperation "JSONPath" pld.GetContentType
        "JSONPath requires JSON payload")
    else
      pld.Query (trimPfxStr expressionPart jsonpathPfx)
  else
    .error (.errUnsupportedExpression expressionPart)

/-- The `i > 0` iterations of the loop in `Evaluate` (`parser/engine.go`):
processes the remaining pipe segments, threading the running result and the
active payload.  Mirrors the Go control flow exactly: first the previous
result must be a `string` (type assertion), then the segment is classified
as standalone transform, direct query, or unsupported. -/
def evalTail (ee : ExpressionEngine) (fullExpression : String) :
    List String → QueryResult → PayloadObject → Except GoError QueryResult
  | [], currentResult, _ => .ok currentResult
  | part :: rest, currentResult, activePayload =>
    let trimmedPart := trimSpace part
    match currentResult.Value with
    | .str prevResultStr =>
      if trimmedPart = extractAsJSONPipe ∨ trimmedPart = extractAsXMLPipe then
        if trimmedPart = extractAsJSONPipe then
          match ee.payloadFactory.CreatePayload prevResultStr "application/json" with
          | .error e =>
            .error (.errEvaluationFailed fullExpression
              ("failed to create intermediate JSON payload for pipe '" ++
                trimmedPart ++ "'") (some e))
          | .ok intermediatePayload =>
            evalTail ee fullExpression rest
              ⟨.str prevResultStr, .StringResult⟩ intermediatePayload
        else
          match ee.payloadFactory.CreatePayload prevResultStr "application/xml" with
          | .error e =>
            .error (.errEvaluationFailed fullExpression
              ("failed to create intermediate XML payload for pipe '" ++
                trimmedPart ++ "'") (some e))
          | .ok intermediatePayload =>
            evalTail ee fullExpression rest
              ⟨.str prevResultStr, .StringResult⟩ intermediatePayload
      else if startsWithStr trimmedPart jsonpathPfx ∨
          startsWithStr trimmedPart xpathPfx then
        match evaluateSingleExpression activePayload trimmedPart with
        | .error e => .error (.errorInPart trimmedPart e)
        | .ok r => evalTail ee fullExpression rest r activePayload
      else
        .error (.errUnsupportedExpression
          ("unsupported pipe operation: " ++ trimmedPart))
    | _ =>
      .error (.errEvaluationFailed fullExpression
        ("pipe operation '" ++ trimmedPart ++
          "' requires string input from previous step, got " ++
          goTypeName currentResult.Value) none)

/-- `Evaluate` from `parser/engine.go`: split the full expression on `|`,
evaluate segment 0 as a single expression against the initial payload, then
run the remaining segments with `evalTail`.  `strings.Split` never returns
an empty slice, so the `[]` case is unreachable; it is given the Go zero
values. -/
def Evaluate (ee : ExpressionEngine) (currentPayload : PayloadObject)
    (fullExpression : String) : Except GoError QueryResult :=
  match splitOnPipe fullExpression with
  | [] => .ok ⟨.nil, .ScalarResult⟩
  | firstPart :: rest =>
    let trimmedPart := trimSpace firstPart
    match evaluateSingleExpression currentPayload trimmedPart with
    | .error e => .error (.errorInPart trimmedPart e)
    | .ok r => evalTail ee fullExpression rest r currentPayload

/-- The content type the engine hands to the factory for each transform
keyword: `application/json` for `extractAsJSON`, `application/xml` for
`extractAsXML` (the two `case` arms of the pipe loop's `switch`). -/
def transformTargetCT (seg : String) : String :=
  if seg = extractAsJSONPipe then "application/json" else "application/xml"

/-! Concrete payloads, factory and engine used by the witness theorems.
They stand in for documents whose query backend is an external parser: the
engine only observes `GetContentType` and the outcome of `Query`. -/

/-- A payload of the given content type whose query backend tags every
answer with the raw content and the query (used as factory output). -/
def mkDoc (raw ct : String) : PayloadObject :=
  ⟨ct, fun q => .ok ⟨.str (raw ++ "@" ++ q), .StringResult⟩⟩

/-- A factory that accepts every creation request. -/
def okFactory : PayloadFactory := ⟨fun raw ct => .ok (mkDoc raw ct)⟩

/-- An engine built over `okFactory`. -/
def eeOk : ExpressionEngine := ⟨okFactory⟩

/-- An XML-typed document answering every query with a string value. -/
def xmlW : PayloadObject :=
  ⟨"application/xml", fun q => .ok ⟨.str ("val:" ++ q), .StringResult⟩⟩

/-- A JSON-typed document answering every query with the query itself. -/
def jsonW : PayloadObject :=
  ⟨"application/json", fun q => .ok ⟨.str q, .StringResult⟩⟩

/-- An XML-typed document answering every query with a boolean value. -/
def boolW : PayloadObject :=
  ⟨"application/xml", fun _ => .ok ⟨.boolean true, .BooleanResult⟩⟩

/-- An XML-typed document whose query at `/flag` is boolean-valued and
string-valued everywhere else. -/
def mixedXmlW : PayloadObject :=
  ⟨"application/xml", fun q =>
    if q = "/flag" then .ok ⟨.boolean true, .BooleanResult⟩
    else .ok ⟨.str "ok", .StringResult⟩⟩

/-- An XML-typed document whose query answer carries a node-set dynamic
value but a (deliberately wrong) advisory `String` tag. -/
def nodeW : PayloadObject :=
  ⟨"application/xml", fun _ => .ok ⟨.other "[]*xmlquery.Node", .StringResult⟩⟩

/-! Helper lemmas about the string primitives and the engine's branches. -/

/-- A string with the `jsonpath:` head cannot have the `xpath:` head. -/
lemma xpath_false_of_jsonpath (e : String) (h : startsWithStr e jsonpathPfx = true) :
    startsWithStr e xpathPfx = false := by
  obtain ⟨d⟩ := e
  cases d with
  | nil => exact absurd h (by decide)
  | cons c cs =>
    have h2 : (('j' == c) && listHeads "sonpath:".data cs) = true := h
    have hc : c = 'j' := by
      rcases Bool.and_eq_true_iff.mp h2 with ⟨hj, -⟩
      exact (beq_iff_eq.mp hj).symm
    show (('x' == c) && listHeads "path:".data cs) = false
    subst hc
    rfl

/-- A string with the `xpath:` head is neither transform keyword. -/
lemma xpath_ne_transforms (t : String) (h : startsWithStr t xpathPfx = true) :
    t ≠ extractAsJSONPipe ∧ t ≠ extractAsXMLPipe := by
  constructor <;> intro he <;> subst he <;> exact absurd h (by decide)

/-- A string with the `jsonpath:` head is neither transform keyword. -/
lemma jsonpath_ne_transforms (t : String) (h : startsWithStr t jsonpathPfx = true) :
    t ≠ extractAsJSONPipe ∧ t ≠ extractAsXMLPipe := by
  constructor <;> intro he <;> subst he <;> exact absurd h (by decide)

/-- Unfolding of `evaluateSingleExpression` on an `xpath:`-headed part. -/
lemma evalSingle_xpath (pld : PayloadObject) (e : String)
    (hx : startsWithStr e xpathPfx = true) :
    evaluateSingleExpression pld e =
      if pld.GetContentType ≠ "application/xml" ∧ pld.GetContentType ≠ "text/xml" then
        .error (.errInvalidPayloadForOperation "XPath" pld.GetContentType
          "XPath requires XML payload")
      else
        pld.Query (trimPfxStr e xpathPfx) := by
  simp [evaluateSingleExpression, hx]

/-- Unfolding of `evaluateSingleExpression` on a `jsonpath:`-headed part. -/
lemma evalSingle_jsonpath (pld : PayloadObject) (e : String)
    (hj : startsWithStr e jsonpathPfx = true) :
    evaluateSingleExpression pld e =
      if pld.GetContentType ≠ "application/json" then
        .error (.errInvalidPayloadForOperation "JSONPath" pld.GetContentType
          "JSONPath requires JSON payload")
      else
        pld.Query (trimPfxStr e jsonpathPfx) := by
  simp [evaluateSingleExpression, xpath_false_of_jsonpath e hj, hj]

/-- A pipe segment whose previous result is not a string fails the
type-assertion gate at the top of the loop, whatever the segment is. -/
lemma evalTail_nonstring (ee : ExpressionEngine) (fe part : String)
    (rest : List String) (cur : QueryResult) (pld : PayloadObject)
    (h : ∀ s, cur.Value ≠ GoValue.str s) :
    evalTail ee fe (part :: rest) cur pld =
      .error (.errEvaluationFailed fe
        ("pipe operation '" ++ trimSpace part ++
          "' requires string input from previous step, got " ++
          goTypeName cur.Value) none) := by
  obtain ⟨v, ty⟩ := cur
  cases v with
  | str s => exact absurd rfl (h s)
  | boolean b => rfl
  | num n => rfl
  | other t => rfl
  | nil => rfl

/-- The `extractAsJSON` branch of the pipe loop. -/
lemma evalTail_transform_json (ee : ExpressionEngine) (fe part : String)
    (rest : List String) (s : String) (ty : ResultType) (pld : PayloadObject)
    (h : trimSpace part = extractAsJSONPipe) :
    evalTail ee fe (part :: rest) ⟨.str s, ty⟩ pld =
      (match ee.payloadFactory.CreatePayload s "application/json" with
       | .error e =>
         .error (.errEvaluationFailed fe
           ("failed to create intermediate JSON payload for pipe '" ++
             trimSpace part ++ "'") (some e))
       | .ok ip => evalTail ee fe rest ⟨.str s, .StringResult⟩ ip) := by
  simp only [evalTail, h]
  simp

/-- The `extractAsXML` branch of the pipe loop. -/
lemma evalTail_transform_xml (ee : ExpressionEngine) (fe part : String)
    (rest : List String) (s : String) (ty : ResultType) (pld : PayloadObject)
    (h : trimSpace part = extractAsXMLPipe) :
    evalTail ee fe (part :: rest) ⟨.str s, ty⟩ pld =
      (match ee.payloadFactory.CreatePayload s "application/xml" with
       | .error e =>
         .error (.errEvaluationFailed fe
           ("failed to create intermediate XML payload for pipe '" ++
             trimSpace part ++ "'") (some e))
       | .ok ip => evalTail ee fe rest ⟨.str s, .StringResult⟩ ip) := by
  simp only [evalTail, h]
  simp [extractAsXMLPipe, extractAsJSONPipe]

/-- The direct-query branch of the pipe loop: the segment is evaluated
against the current active payload, which is passed on unchanged. -/
lemma evalTail_direct (ee : ExpressionEngine) (fe part : String)
    (rest : List String) (s : String) (ty : ResultType) (pld : PayloadObject)
    (hpfx : startsWithStr (trimSpace part) jsonpathPfx = true ∨
      startsWithStr (trimSpace part) xpathPfx = true) :
    evalTail ee fe (part :: rest) ⟨.str s, ty⟩ pld =
      (match evaluateSingleExpression pld (trimSpace part) with
       | .error e => .error (.errorInPart (trimSpace part) e)
       | .ok r => evalTail ee fe rest r pld) := by
  have hne : trimSpace part ≠ extractAsJSONPipe ∧ trimSpace part ≠ extractAsXMLPipe := by
    rcases hpfx with h | h
    · exact jsonpath_ne_transforms _ h
    · exact xpath_ne_transforms _ h
  simp only [evalTail]
  simp [hne.1, hne.2, hpfx]

/-- The unsupported-pipe-operation branch of the pipe loop. -/
lemma evalTail_unsupported (ee : ExpressionEngine) (fe part : String)
    (rest : List String) (s : String) (ty : ResultType) (pld : PayloadObject)
    (h1 : trimSpace part ≠ extractAsJSONPipe) (h2 : trimSpace part ≠ extractAsXMLPipe)
    (h3 : startsWithStr (trimSpace part) jsonpathPfx = false)
    (h4 : startsWithStr (trimSpace part) xpathPfx = false) :
    evalTail ee fe (part :: rest) ⟨.str s, ty⟩ pld =
      .error (.errUnsupportedExpression
        ("unsupported pipe operation: " ++ trimSpace part)) := by
  simp only [evalTail]
  simp [h1, h2, h3, h4]

/-- Unfolding of `Evaluate` once the split of the expression is known. -/
lemma Evaluate_cons (ee : ExpressionEngine) (pld : PayloadObject)
    (fe first : String) (rest : List String)
    (hsplit : splitOnPipe fe = first :: rest) :
    Evaluate ee pld fe =
      (match evaluateSingleExpression pld (trimSpace first) with
       | .error e => .error (.errorInPart (trimSpace first) e)
       | .ok r => evalTail ee fe rest r pld) := by
  unfold Evaluate
  rw [hsplit]

/-! Claim theorems. -/

/-- C1: an `xpath:`-headed expression part fails with
`ErrInvalidPayloadForOperation` exactly when the payload's declared content
type is neither `application/xml` nor `text/xml`, and otherwise strips the
head and delegates to `Query`; symmetrically a `jsonpath:`-headed part
fails unless the content type is `application/json`, and otherwise strips
the head and delegates to `Query`. -/
theorem xpath_jsonpath_type_gating (pld : PayloadObject) (e : String) :
    (startsWithStr e xpathPfx = true →
      ((pld.GetContentType ≠ "application/xml" ∧ pld.GetContentType ≠ "text/xml") →
        evaluateSingleExpression pld e =
          .error (.errInvalidPayloadForOperation "XPath" pld.GetContentType
            "XPath requires XML payload")) ∧
      ((pld.GetContentType = "application/xml" ∨ pld.GetContentType = "text/xml") →
        evaluateSingleExpression pld e = pld.Query (trimPfxStr e xpathPfx))) ∧
    (startsWithStr e jsonpathPfx = true →
      (pld.GetContentType ≠ "application/json" →
        evaluateSingleExpression pld e =
          .error (.errInvalidPayloadForOperation "JSONPath" pld.GetContentType
            "JSONPath requires JSON payload")) ∧
      (pld.GetContentType = "application/json" →
        evaluateSingleExpression pld e = pld.Query (trimPfxStr e jsonpathPfx))) := by
  constructor
  · intro hx
    rw [evalSingle_xpath pld e hx]
    constructor
    · intro hct
      rw [if_pos hct]
    · intro hok
      rw [if_neg]
      rintro ⟨ha, hb⟩
      rcases hok with h | h
      · exact ha h
      · exact hb h
  · intro hj
    rw [evalSingle_jsonpath pld e hj]
    constructor
    · intro hct
      rw [if_pos hct]
    · intro hok
      rw [if_neg]
      intro ha
      exact ha hok

/-- C1 witness: `xpath:` against a JSON-declared payload fails with the
payload-type-mismatch error. -/
theorem xpath_jsonpath_type_gating_witness :
    evaluateSingleExpression jsonW "xpath:/a" =
      .error (.errInvalidPayloadForOperation "XPath" "application/json"
        "XPath requires XML payload") :=
  ((xpath_jsonpath_type_gating jsonW "xpath:/a").1 (by decide)).1 (by decide)

/-- C2: when segment 0 evaluates to a string value `S` and the factory
accepts `S` as JSON, a pipeline whose only further segment is the
`extractAsJSON` transform succeeds with the same value `S`, retagged as a
`String` result: the transform-only tail is a passthrough on the value. -/
theorem transform_tail_passthrough (ee : ExpressionEngine) (pld : PayloadObject)
    (fe first t S : String) (tag : ResultType) (d : PayloadObject)
    (hsplit : splitOnPipe fe = [first, t])
    (hx : startsWithStr (trimSpace first) xpathPfx = true)
    (hq : evaluateSingleExpression pld (trimSpace first) = .ok ⟨.str S, tag⟩)
    (ht : trimSpace t = extractAsJSONPipe)
    (hfac : ee.payloadFactory.CreatePayload S "application/json" = .ok d) :
    Evaluate ee pld fe = .ok ⟨.str S, .StringResult⟩ := by
  rw [Evaluate_cons ee pld fe first [t] hsplit, hq]
  show evalTail ee fe [t] ⟨.str S, tag⟩ pld = .ok ⟨.str S, .StringResult⟩
  rw [evalTail_transform_json ee fe t [] S tag pld ht, hfac]
  rfl

/-- C2 witness: a concrete two-stage pipeline returning the first stage's
string verbatim. -/
theorem transform_tail_passthrough_witness :
    Evaluate eeOk xmlW "xpath:/a | extractAsJSON" =
      .ok ⟨.str "val:/a", .StringResult⟩ :=
  transform_tail_passthrough eeOk xmlW "xpath:/a | extractAsJSON"
    "xpath:/a " " extractAsJSON" "val:/a" .StringResult
    (mkDoc "val:/a" "application/json") (by decide) (by decide) rfl (by decide) rfl

/-- C5 counterexample: the empty expression does not fail with a dedicated
empty-expression error; the engine evaluates the single empty segment and
fails with `ErrUnsupportedExpression` (wrapped with the segment text).  The
code of `engine.go` defines no `ExpressionEmpty` error at all. -/
theorem empty_expression_cex :
    Evaluate eeOk xmlW "" =
      .error (.errorInPart "" (.errUnsupportedExpression "")) := rfl

/-- C5 amended: an expression that splits into a single segment which trims
to the empty string fails with `ErrUnsupportedExpression` on that empty
segment, wrapped as an error in expression part `""` — not with a dedicated
empty-expression error, which the code does not have. -/
theorem empty_expression_unsupported (ee : ExpressionEngine) (pld : PayloadObject)
    (fe s : String) (hsplit : splitOnPipe fe = [s]) (hs : trimSpace s = "") :
    Evaluate ee pld fe =
      .error (.errorInPart "" (.errUnsupportedExpression "")) := by
  rw [Evaluate_cons ee pld fe s [] hsplit, hs]
  rfl

/-- C5 witness: an all-whitespace expression hits the amended error. -/
theorem empty_expression_unsupported_witness :
    Evaluate eeOk xmlW " " =
      .error (.errorInPart "" (.errUnsupportedExpression "")) :=
  empty_expression_unsupported eeOk xmlW " " " " (by decide) (by decide)

/-- C4 counterexample: a direct-query segment after a non-string result does
NOT evaluate.  Here the document answers `/other` successfully with a
string, yet the pipeline `xpath:/flag | xpath:/other` fails with the
string-input error, because the type-assertion gate at the top of the loop
applies to every subsequent segment, direct queries included. -/
theorem direct_query_after_nonstring_cex :
    mixedXmlW.Query "/other" = .ok ⟨.str "ok", .StringResult⟩ ∧
    Evaluate eeOk mixedXmlW "xpath:/flag | xpath:/other" =
      .error (.errEvaluationFailed "xpath:/flag | xpath:/other"
        "pipe operation 'xpath:/other' requires string input from previous step, got bool"
        none) :=
  ⟨rfl, rfl⟩

/-- C4 amended: the string-input requirement applies to every segment after
the first, direct queries included.  When the running result is not a
string, any subsequent segment fails with the string-input error; when it
is a string, a `xpath:`/`jsonpath:`-headed segment is evaluated against the
active document and its result replaces the running result. -/
theorem subsequent_segments_require_string (ee : ExpressionEngine) (fe seg : String)
    (rest : List String) (cur : QueryResult) (pld : PayloadObject) :
    ((∀ s, cur.Value ≠ GoValue.str s) →
      evalTail ee fe (seg :: rest) cur pld =
        .error (.errEvaluationFailed fe
          ("pipe operation '" ++ trimSpace seg ++
            "' requires string input from previous step, got " ++
            goTypeName cur.Value) none)) ∧
    (∀ s, cur.Value = GoValue.str s →
      (startsWithStr (trimSpace seg) jsonpathPfx = true ∨
        startsWithStr (trimSpace seg) xpathPfx = true) →
      evalTail ee fe (seg :: rest) cur pld =
        (match evaluateSingleExpression pld (trimSpace seg) with
         | .error e => .error (.errorInPart (trimSpace seg) e)
         | .ok r => evalTail ee fe rest r pld)) := by
  constructor
  · intro h
    exact evalTail_nonstring ee fe seg rest cur pld h
  · intro s hs hpfx
    obtain ⟨v, ty⟩ := cur
    cases hs
    exact evalTail_direct ee fe seg rest s ty pld hpfx

/-- C4 witness: a boolean running result makes a following direct-query
segment fail with the string-input error. -/
theorem subsequent_segments_require_string_witness :
    evalTail eeOk "f" ["xpath:/x"] ⟨.boolean true, .BooleanResult⟩ xmlW =
      .error (.errEvaluationFailed "f"
        "pipe operation 'xpath:/x' requires string input from previous step, got bool"
        none) :=
  (subsequent_segments_require_string eeOk "f" "xpath:/x" []
    ⟨.boolean true, .BooleanResult⟩ xmlW).1 (fun s h => GoValue.noConfusion h)

/-- C6 counterexample: `frobnicate` after a boolean-valued query stage does
not fail with the unsupported-pipe-operation error; the string-input gate
fires first and the pipeline fails with `ErrEvaluationFailed` instead. -/
theorem frobnicate_after_bool_cex :
    Evaluate eeOk boolW "xpath:/flag | frobnicate" =
      .error (.errEvaluationFailed "xpath:/flag | frobnicate"
        "pipe operation 'frobnicate' requires string input from previous step, got bool"
        none) :=
  rfl

/-- C6 amended: a segment after the first that is neither transform keyword
and has neither query head fails with `ErrUnsupportedExpression` naming the
segment, provided evaluation reaches it with a string-valued running
result; with a non-string running result the string-input error fires
instead. -/
theorem unsupported_pipe_operation (ee : ExpressionEngine) (pld : PayloadObject)
    (fe first seg : String) (rest : List String) (S : String) (tag : ResultType)
    (hsplit : splitOnPipe fe = first :: seg :: rest)
    (hq : evaluateSingleExpression pld (trimSpace first) = .ok ⟨.str S, tag⟩)
    (h1 : trimSpace seg ≠ extractAsJSONPipe) (h2 : trimSpace seg ≠ extractAsXMLPipe)
    (h3 : startsWithStr (trimSpace seg) jsonpathPfx = false)
    (h4 : startsWithStr (trimSpace seg) xpathPfx = false) :
    Evaluate ee pld fe =
      .error (.errUnsupportedExpression
        ("unsupported pipe operation: " ++ trimSpace seg)) := by
  rw [Evaluate_cons ee pld fe first (seg :: rest) hsplit, hq]
  exact evalTail_unsupported ee fe seg rest S tag pld h1 h2 h3 h4

/-- C6 witness: `xpath:/a | frobnicate` with a string-valued first stage
fails with the unsupported-pipe-operation error naming `frobnicate`. -/
theorem unsupported_pipe_operation_witness :
    Evaluate eeOk xmlW "xpath:/a | frobnicate" =
      .error (.errUnsupportedExpression "unsupported pipe operation: frobnicate") :=
  unsupported_pipe_operation eeOk xmlW "xpath:/a | frobnicate" "xpath:/a "
    " frobnicate" [] "val:/a" .StringResult (by decide) rfl (by decide) (by decide)
    (by decide) (by decide)

/-- C7: a transform segment immediately after a stage whose result value is
not a string fails with the string-input error naming the segment and the
Go dynamic type of the predecessor's value; the advisory `Ty` tag of the
result is arbitrary (the check is on the dynamic value only). -/
theorem transform_nonstring_input_fails (ee : ExpressionEngine) (pld : PayloadObject)
    (fe first seg : String) (rest : List String) (r : QueryResult)
    (hsplit : splitOnPipe fe = first :: seg :: rest)
    (hq : evaluateSingleExpression pld (trimSpace first) = .ok r)
    (hns : ∀ s, r.Value ≠ GoValue.str s)
    (htr : trimSpace seg = extractAsJSONPipe ∨ trimSpace seg = extractAsXMLPipe) :
    Evaluate ee pld fe =
      .error (.errEvaluationFailed fe
        ("pipe operation '" ++ trimSpace seg ++
          "' requires string input from previous step, got " ++
          goTypeName r.Value) none) := by
  rw [Evaluate_cons ee pld fe first (seg :: rest) hsplit, hq]
  exact evalTail_nonstring ee fe seg rest r pld hns

/-- C7 witness: a node-set-valued stage (with a deliberately wrong advisory
`String` tag) followed by `extractAsJSON` fails with the string-input
error reporting the dynamic type. -/
theorem transform_nonstring_input_fails_witness :
    Evaluate eeOk nodeW "xpath:/a | extractAsJSON" =
      .error (.errEvaluationFailed "xpath:/a | extractAsJSON"
        "pipe operation 'extractAsJSON' requires string input from previous step, got []*xmlquery.Node"
        none) :=
  transform_nonstring_input_fails eeOk nodeW "xpath:/a | extractAsJSON"
    "xpath:/a " " extractAsJSON" [] ⟨.other "[]*xmlquery.Node", .StringResult⟩
    (by decide) rfl (fun s h => GoValue.noConfusion h) (Or.inl (by decide))

/-- C8: direct-query segments never change the active document.  Segment 0
passes the initial payload unchanged into the rest of the pipeline, and a
subsequent `xpath:`/`jsonpath:`-headed segment that evaluates successfully
passes the same active payload on to the remaining segments (only the
transform branches ever rebind it). -/
theorem direct_query_keeps_active_document (ee : ExpressionEngine) (fe : String)
    (pld : PayloadObject) :
    (∀ first rest r, splitOnPipe fe = first :: rest →
      evaluateSingleExpression pld (trimSpace first) = .ok r →
      Evaluate ee pld fe = evalTail ee fe rest r pld) ∧
    (∀ seg rest cur s r, cur.Value = GoValue.str s →
      (startsWithStr (trimSpace seg) jsonpathPfx = true ∨
        startsWithStr (trimSpace seg) xpathPfx = true) →
      evaluateSingleExpression pld (trimSpace seg) = .ok r →
      evalTail ee fe (seg :: rest) cur pld = evalTail ee fe rest r pld) := by
  constructor
  · intro first rest r hsplit hq
    rw [Evaluate_cons ee pld fe first rest hsplit, hq]
  · intro seg rest cur s r hs hpfx hq
    obtain ⟨v, ty⟩ := cur
    cases hs
    rw [evalTail_direct ee fe seg rest s ty pld hpfx, hq]

/-- C8 witness: a `jsonpath:` segment evaluated against the active JSON
document hands the same document to the rest of the pipeline. -/
theorem direct_query_keeps_active_document_witness :
    evalTail eeOk "f" ["jsonpath:k"] ⟨.str "{}", .StringResult⟩ jsonW =
      evalTail eeOk "f" [] ⟨.str "k", .StringResult⟩ jsonW :=
  (direct_query_keeps_active_document eeOk "f" jsonW).2 "jsonpath:k" []
    ⟨.str "{}", .StringResult⟩ "{}" ⟨.str "k", .StringResult⟩ rfl
    (Or.inl (by decide)) rfl

/-- C9: two consecutive transform segments compose.  The second transform
passes the string-input check with the first transform's passthrough
string `S`, builds a second document from that same `S` (provided the
factory accepts both builds), and as the last segment leaves the
pipeline's final value at `S`, tagged `String`. -/
theorem transform_transform_composes (ee : ExpressionEngine) (pld : PayloadObject)
    (fe first t1 t2 S : String) (tag : ResultType) (d1 d2 : PayloadObject)
    (hsplit : splitOnPipe fe = [first, t1, t2])
    (hq : evaluateSingleExpression pld (trimSpace first) = .ok ⟨.str S, tag⟩)
    (h1 : trimSpace t1 = extractAsJSONPipe ∨ trimSpace t1 = extractAsXMLPipe)
    (h2 : trimSpace t2 = extractAsJSONPipe ∨ trimSpace t2 = extractAsXMLPipe)
    (hf1 : ee.payloadFactory.CreatePayload S (transformTargetCT (trimSpace t1)) = .ok d1)
    (hf2 : ee.payloadFactory.CreatePayload S (transformTargetCT (trimSpace t2)) = .ok d2) :
    Evaluate ee pld fe = .ok ⟨.str S, .StringResult⟩ := by
  rw [Evaluate_cons ee pld fe first [t1, t2] hsplit, hq]
  show evalTail ee fe [t1, t2] ⟨.str S, tag⟩ pld = .ok ⟨.str S, .StringResult⟩
  rcases h1 with h1 | h1
  · rw [transformTargetCT, h1, if_pos rfl] at hf1
    rw [evalTail_transform_json ee fe t1 [t2] S tag pld h1, hf1]
    show evalTail ee fe [t2] ⟨.str S, .StringResult⟩ d1 = .ok ⟨.str S, .StringResult⟩
    rcases h2 with h2 | h2
    · rw [transformTargetCT, h2, if_pos rfl] at hf2
      rw [evalTail_transform_json ee fe t2 [] S .StringResult d1 h2, hf2]
      rfl
    · rw [transformTargetCT, h2, if_neg (by decide)] at hf2
      rw [evalTail_transform_xml ee fe t2 [] S .StringResult d1 h2, hf2]
      rfl
  · rw [transformTargetCT, h1, if_neg (by decide)] at hf1
    rw [evalTail_transform_xml ee fe t1 [t2] S tag pld h1, hf1]
    show evalTail ee fe [t2] ⟨.str S, .StringResult⟩ d1 = .ok ⟨.str S, .StringResult⟩
    rcases h2 with h2 | h2
    · rw [transformTargetCT, h2, if_pos rfl] at hf2
      rw [evalTail_transform_json ee fe t2 [] S .StringResult d1 h2, hf2]
      rfl
    · rw [transformTargetCT, h2, if_neg (by decide)] at hf2
      rw [evalTail_transform_xml ee fe t2 [] S .StringResult d1 h2, hf2]
      rfl

/-- C9 witness: `xpath:/a | extractAsJSON | extractAsXML` returns the first
stage's string verbatim when the factory accepts both intermediate builds. -/
theorem transform_transform_composes_witness :
    Evaluate eeOk xmlW "xpath:/a | extractAsJSON | extractAsXML" =
      .ok ⟨.str "val:/a", .StringResult⟩ :=
  transform_transform_composes eeOk xmlW
    "xpath:/a | extractAsJSON | extractAsXML" "xpath:/a " " extractAsJSON "
    " extractAsXML" "val:/a" .StringResult
    (mkDoc "val:/a" "application/json") (mkDoc "val:/a" "application/xml")
    (by decide) rfl (Or.inl (by decide)) (Or.inr (by decide)) rfl rfl

/-- C10: the expression is split at every `|` character with no escaping:
`xpath:/a|/b` is cut into the segments `xpath:/a` and `/b`, so the union
query is never passed whole to the underlying evaluator — the engine
queries `/a` and then fails with the unsupported-pipe-operation error on
the unprefixed remainder `/b` (whatever the evaluator would have said
about `/a|/b`). -/
theorem pipe_char_always_splits (ee : ExpressionEngine) (pld : PayloadObject)
    (S : String) (tag : ResultType)
    (hct : pld.GetContentType = "application/xml")
    (hq : pld.Query "/a" = .ok ⟨.str S, tag⟩) :
    splitOnPipe "xpath:/a|/b" = ["xpath:/a", "/b"] ∧
    Evaluate ee pld "xpath:/a|/b" =
      .error (.errUnsupportedExpression "unsupported pipe operation: /b") := by
  refine ⟨by decide, ?_⟩
  rw [Evaluate_cons ee pld "xpath:/a|/b" "xpath:/a" ["/b"] (by decide)]
  have he : evaluateSingleExpression pld (trimSpace "xpath:/a") = .ok ⟨.str S, tag⟩ := by
    rw [show trimSpace "xpath:/a" = "xpath:/a" from rfl,
      evalSingle_xpath pld "xpath:/a" (by decide), if_neg, show trimPfxStr "xpath:/a" xpathPfx = "/a" from rfl, hq]
    rw [hct]
    simp
  rw [he]
  exact evalTail_unsupported ee "xpath:/a|/b" "/b" [] S tag pld (by decide)
    (by decide) (by decide) (by decide)

/-- C10 witness: the split and the failure at a concrete XML document. -/
theorem pipe_char_always_splits_witness :
    splitOnPipe "xpath:/a|/b" = ["xpath:/a", "/b"] ∧
    Evaluate eeOk xmlW "xpath:/a|/b" =
      .error (.errUnsupportedExpression "unsupported pipe operation: /b") :=
  pipe_char_always_splits eeOk xmlW "val:/a" .StringResult rfl rfl
